import Mathlib

/-
  Verification of the Room_Monitor controller (Room_Monitor.py).

  Shallow embedding conventions:
  * Python strings are Lean `String`s; `str.strip()`, `str.lower()`, `str.upper()`
    are modelled by `strTrim`, `strLower`, `strUpper` over the character list
    (the payloads involved are ASCII).
  * Python dicts whose insertion order matters (`SENSORS`, `ErrorBus._errors`,
    `_contact_states`, the persisted JSON object) are modelled as association
    lists with unique keys; `setA`/`lookupA`/`removeA` mirror item assignment,
    `.get`, and `del`.
  * Timestamps (`datetime.now()`, `time.monotonic()`) are `Nat` milliseconds
    passed in explicitly by the caller of each modelled operation.
  * The MQTT client is modelled by the list of publishes an operation performs
    (`Pub`), in order; `client.subscribe` appends to a subscription list.
    JSON discovery dictionaries (`json.dumps(payload)`) are represented
    symbolically by dedicated `Payload` constructors; they are never the empty
    string, which is what an empty-payload retained delete publishes.
  * `HOST` (derived from the hostname at startup via `slugify`) is fixed to the
    representative slug "monitor"; no claim depends on its value.
-/

-- ============================================================
-- String helpers (models of Python str.strip/lower/upper, ASCII)
-- ============================================================

def strLower (s : String) : String := ⟨s.data.map Char.toLower⟩

def strUpper (s : String) : String := ⟨s.data.map Char.toUpper⟩

def strTrim (s : String) : String :=
  ⟨List.reverse ((List.reverse (s.data.dropWhile Char.isWhitespace)).dropWhile Char.isWhitespace)⟩

-- ============================================================
-- Association-list helpers (Python dict with insertion order)
-- ============================================================

def lookupA {α : Type} : List (String × α) → String → Option α
  | [], _ => none
  | (k', v) :: rest, k => if k' == k then some v else lookupA rest k

def lookupD {α : Type} (m : List (String × α)) (k : String) (d : α) : α :=
  (lookupA m k).getD d

def setA {α : Type} : List (String × α) → String → α → List (String × α)
  | [], k, v => [(k, v)]
  | (k', v') :: rest, k, v => if k' == k then (k, v) :: rest else (k', v') :: setA rest k v

def removeA {α : Type} (m : List (String × α)) (k : String) : List (String × α) :=
  m.filter (fun p => p.1 != k)

-- ============================================================
-- CONTACT CONFIG (constants from the source)
-- ============================================================

def BOUNCE_MS : Nat := 120

-- POLL_INTERVAL_SEC = 0.05 s, expressed in milliseconds
def POLL_INTERVAL_MS : Nat := 50

def HOST : String := "monitor"

def HA_DISCOVERY_PREFIX : String := "homeassistant"

-- SENSORS keys, in insertion order; every zone starts with device_class "opening"
def ZONE_KEYS : List String :=
  ["zone1", "zone2", "zone3", "zone4", "zone5", "zone6", "zone7", "zone8", "zone9", "zone10"]

-- pin numbers of SENSORS (unchanged at runtime)
def pinOfZone (k : String) : Nat :=
  lookupD [("zone1", 22), ("zone2", 25), ("zone3", 5), ("zone4", 6), ("zone5", 12),
           ("zone6", 13), ("zone7", 16), ("zone8", 18), ("zone9", 17), ("zone10", 23)] k 0

def VALID_CLASSES : List String := ["door", "window", "opening", "output_toggle", "output_tap"]

-- OUTPUT_TAP_SEC = 0.5 s, in milliseconds
def OUTPUT_TAP_MS : Nat := 500

def is_output_class (cls : String) : Bool :=
  let c := strLower (strTrim cls)
  c == "output_toggle" || c == "output_tap"

def ZONE_PLACEHOLDER : String := "-- Select Zone --"

def CLASS_PLACEHOLDER : String := "-- Select Class --"

-- ============================================================
-- PRIORITIES (lower = higher)
-- ============================================================

def P_HIGH : Int := 10

def P_MEDHIGH : Int := 30

def P_MED : Int := 60

def P_LOW : Int := 90

-- ============================================================
-- ErrorBus (priority stack + log-on-change)
-- ============================================================

structure ErrorItem where
  key : String
  message : String
  priority : Int
  since : Nat
  last_update : Nat
  count : Nat
  meta : Option String
deriving DecidableEq, Repr

-- fingerprint = (priority, message, json.dumps(meta) if meta is not None else None);
-- the serialized metadata is carried as the `Option String` itself
abbrev Fingerprint := Int × String × Option String

def fingerprint (priority : Int) (message : String) (meta : Option String) : Fingerprint :=
  (priority, message, meta)

structure BusState where
  errors : List ErrorItem
  dirty : Bool
  lastLoggedFp : List (String × Fingerprint)
deriving DecidableEq, Repr

-- ErrorBus.__init__: empty dict, _dirty = True, empty fingerprint map
def emptyBus : BusState := ⟨[], true, []⟩

def containsKey (l : List ErrorItem) (key : String) : Bool :=
  l.any (fun e => e.key == key)

def findItem (l : List ErrorItem) (key : String) : Option ErrorItem :=
  l.find? (fun e => e.key == key)

-- ErrorBus.raise_error; the Bool is whether a log record was emitted
def raise_error (s : BusState) (key message : String) (priority : Int)
    (meta : Option String) (now : Nat) : BusState × Bool :=
  let fp := fingerprint priority message meta
  let existed := containsKey s.errors key
  let errors' :=
    if existed then
      s.errors.map (fun e =>
        if e.key == key then
          { e with message := message, priority := priority, last_update := now,
                   count := e.count + 1, meta := if meta.isSome then meta else e.meta }
        else e)
    else
      s.errors ++ [⟨key, message, priority, now, now, 1, meta⟩]
  let prevFp := lookupA s.lastLoggedFp key
  let doLog := (!existed) || (prevFp != some fp)
  ({ errors := errors', dirty := true,
     lastLoggedFp := if doLog then setA s.lastLoggedFp key fp else s.lastLoggedFp },
   doLog)

-- ErrorBus.clear_error; the Bool is whether a resolution record was logged
def clear_error (s : BusState) (key : String) : BusState × Bool :=
  if containsKey s.errors key then
    ({ errors := s.errors.filter (fun e => e.key != key), dirty := true,
       lastLoggedFp := removeA s.lastLoggedFp key }, true)
  else (s, false)

def errKey (e : ErrorItem) : Int × Nat := (e.priority, e.since)

-- Python tuple comparison (e.priority, e.since) < (f.priority, f.since)
def ltKey (a b : Int × Nat) : Bool :=
  a.1 < b.1 || (a.1 == b.1 && a.2 < b.2)

-- min(self._errors.values(), key=lambda e: (e.priority, e.since));
-- Python min keeps the first element among ties
def minItem : List ErrorItem → Option ErrorItem
  | [] => none
  | e :: rest => some (rest.foldl (fun m x => if ltKey (errKey x) (errKey m) then x else m) e)

-- ErrorBus.snapshot_top
def snapshot_top (s : BusState) : Option ErrorItem × Bool :=
  (minItem s.errors, s.dirty)

def mark_clean (s : BusState) : BusState := { s with dirty := false }

-- a raise/clear call sequence against the bus
inductive BusOp where
  | raiseOp (key message : String) (priority : Int) (meta : Option String) (now : Nat)
  | clearOp (key : String)
deriving DecidableEq, Repr

def busStep (s : BusState) : BusOp → BusState
  | .raiseOp k m p meta now => (raise_error s k m p meta now).1
  | .clearOp k => (clear_error s k).1

def runOps (ops : List BusOp) : BusState := ops.foldl busStep emptyBus

-- lexicographic (priority, creation-time) order used by the claims
def LeKey (a b : Int × Nat) : Prop :=
  a.1 < b.1 ∨ (a.1 = b.1 ∧ a.2 ≤ b.2)

-- ============================================================
-- Topics
-- ============================================================

def contact_state_topic (k : String) : String := HOST ++ "_" ++ k ++ "/state"

def contact_discovery_topic (k : String) : String :=
  HA_DISCOVERY_PREFIX ++ "/binary_sensor/" ++ HOST ++ "/" ++ k ++ "/config"

def switch_state_topic (k : String) : String := HOST ++ "_" ++ k ++ "/switch/state"

def switch_command_topic (k : String) : String := HOST ++ "_" ++ k ++ "/switch/set"

def switch_discovery_topic (k : String) : String :=
  HA_DISCOVERY_PREFIX ++ "/switch/" ++ HOST ++ "/" ++ k ++ "/config"

def TOP_ZONE_SET : String := HOST ++ "/zone_select/set"

def TOP_CLASS_SET : String := HOST ++ "/class_select/set"

def TOP_ZONE_STATE : String := HOST ++ "/zone_select/state"

def TOP_CLASS_STATE : String := HOST ++ "/class_select/state"

def zone_select_discovery_topic : String :=
  HA_DISCOVERY_PREFIX ++ "/select/" ++ HOST ++ "/zone_select/config"

def class_select_discovery_topic : String :=
  HA_DISCOVERY_PREFIX ++ "/select/" ++ HOST ++ "/class_select/config"

-- ============================================================
-- MQTT publishes
-- ============================================================

-- payloads; the JSON discovery dictionaries built by
-- publish_entity_discovery_one / publish_zone_class_select_discovery are kept
-- symbolic (they are json.dumps of nonempty dicts, never the empty string)
inductive Payload where
  | str (s : String)
  | discBinary (zone cls : String)
  | discSwitch (zone cls : String)
  | discZoneSelect
  | discClassSelect
deriving DecidableEq, Repr

-- the empty retained payload that deletes a discovery entry (_delete_discovery)
def isDeletePayload : Payload → Bool
  | .str s => s == ""
  | _ => false

structure Pub where
  topic : String
  payload : Payload
  qos : Nat
  retain : Bool
deriving DecidableEq, Repr

-- broker retained-message state: topic → currently retained payload;
-- a retained publish stores the payload, an empty retained payload deletes it
def applyPub (r : List (String × Payload)) (p : Pub) : List (String × Payload) :=
  if p.retain then
    if isDeletePayload p.payload then removeA r p.topic else setA r p.topic p.payload
  else r

def applyPubs (r : List (String × Payload)) (ps : List Pub) : List (String × Payload) :=
  ps.foldl applyPub r

-- ============================================================
-- System state (SENSORS classes, GPIO levels, globals)
-- ============================================================

structure SysState where
  -- SENSORS[k]["device_class"]
  classes : List (String × String)
  -- electrical level of each zone's pin (true = HIGH)
  pins : List (String × Bool)
  -- _contact_states
  contactStates : List (String × Bool)
  -- _last_contact_change_key / _last_contact_change_is_open
  lastChangeKey : Option String
  lastChangeOpen : Option Bool
  -- _selected_zone / _selected_class
  selectedZone : String
  selectedClass : String
  -- parsed contents of the persisted zones JSON file
  persisted : List (String × String)
  -- topics passed to client.subscribe
  subs : List String
deriving DecidableEq, Repr

-- boot state: every zone device_class "opening", all pins low, contacts closed
def initState : SysState where
  classes := ZONE_KEYS.map (fun k => (k, "opening"))
  pins := ZONE_KEYS.map (fun k => (k, false))
  contactStates := ZONE_KEYS.map (fun k => (k, false))
  lastChangeKey := none
  lastChangeOpen := none
  selectedZone := ZONE_PLACEHOLDER
  selectedClass := CLASS_PLACEHOLDER
  persisted := []
  subs := []

-- GPIO.input(pin) for a zone's pin (the model keeps the level per zone key)
def pinLevel (st : SysState) (k : String) : Bool := lookupD st.pins k false

-- GPIO.output(pin, HIGH if on else LOW)  (set_output_state)
def set_output_state (st : SysState) (k : String) (lvl : Bool) : SysState :=
  { st with pins := setA st.pins k lvl }

-- get_output_state
def get_output_state (st : SysState) (k : String) : String :=
  if pinLevel st k then "ON" else "OFF"

-- _gpio_setup_for_zone: output zones are driven LOW initially; input zones are
-- reconfigured as pull-up inputs, after which the level tracks the physical
-- contact (the model leaves the stored level unchanged)
def gpio_setup_for_zone (st : SysState) (k : String) : SysState :=
  if is_output_class (lookupD st.classes k "opening") then set_output_state st k false else st

-- load_zone_classes, applied to the parsed JSON object (a missing or unparsable
-- file yields the empty map via the exception handler)
def load_zone_classes (data : List (String × String)) : List (String × String) :=
  data.foldl
    (fun out kv =>
      let kk := strTrim kv.1
      let vv := strLower (strTrim kv.2)
      if ZONE_KEYS.contains kk && VALID_CLASSES.contains vv then setA out kk vv else out)
    []

-- the boot-time classification: defaults "opening", overridden by the
-- persisted entries that survive load_zone_classes
def bootClasses (data : List (String × String)) : List (String × String) :=
  (load_zone_classes data).foldl (fun m kv => setA m kv.1 kv.2)
    (ZONE_KEYS.map (fun k => (k, "opening")))

-- publish_contact_state; the Bool is whether a SENSOR_CHANGE record was logged
def publish_contact_state (st : SysState) (sensorKey : String) :
    SysState × List Pub × Bool :=
  if is_output_class (lookupD st.classes sensorKey "") then (st, [], false)
  else
    let isOpen := pinLevel st sensorKey
    let prev := lookupD st.contactStates sensorKey false
    let changed := prev != isOpen
    let st' :=
      if changed then
        { st with contactStates := setA st.contactStates sensorKey isOpen,
                  lastChangeKey := some sensorKey, lastChangeOpen := some isOpen }
      else st
    (st', [⟨contact_state_topic sensorKey, .str (if isOpen then "ON" else "OFF"), 1, true⟩],
     changed)

-- publish_entity_discovery_one
def publish_entity_discovery_one (st : SysState) (zoneKey : String) : List Pub :=
  let cls := lookupD st.classes zoneKey "opening"
  if is_output_class cls then
    [⟨switch_discovery_topic zoneKey, .discSwitch zoneKey cls, 1, true⟩]
  else
    [⟨contact_discovery_topic zoneKey, .discBinary zoneKey cls, 1, true⟩]

-- publish_zone_class_select_discovery: publishes both selector descriptors,
-- resets the selection cursor, then publishes both placeholder states
def publish_zone_class_select_discovery (st : SysState) : SysState × List Pub :=
  ({ st with selectedZone := ZONE_PLACEHOLDER, selectedClass := CLASS_PLACEHOLDER },
   [⟨zone_select_discovery_topic, .discZoneSelect, 1, true⟩,
    ⟨class_select_discovery_topic, .discClassSelect, 1, true⟩,
    ⟨TOP_ZONE_STATE, .str ZONE_PLACEHOLDER, 1, true⟩,
    ⟨TOP_CLASS_STATE, .str CLASS_PLACEHOLDER, 1, true⟩])

-- _apply_zone_class_change
def applyZoneClassChange (st : SysState) (zoneKey0 newClass0 : String) :
    SysState × List Pub :=
  let zoneKey := strTrim zoneKey0
  let newClass := strLower (strTrim newClass0)
  if !(ZONE_KEYS.contains zoneKey) then (st, [])
  else if !(VALID_CLASSES.contains newClass) then (st, [])
  else
    let old := lookupD st.classes zoneKey "opening"
    if old == newClass then (st, [])
    else
      let oldOut := is_output_class old
      let newOut := is_output_class newClass
      -- 1) persist: read-modify-write of the whole map, then atomic rename
      let st1 : SysState :=
        { st with classes := setA st.classes zoneKey newClass,
                  persisted := setA (load_zone_classes st.persisted) zoneKey newClass }
      -- 2) reconfigure GPIO mode
      let st2 := gpio_setup_for_zone st1 zoneKey
      -- 3) delete old discovery config so HA does not accumulate orphans
      let dels :=
        (if oldOut && !newOut then [⟨switch_discovery_topic zoneKey, .str "", 1, true⟩] else [])
        ++ (if !oldOut && newOut then [⟨contact_discovery_topic zoneKey, .str "", 1, true⟩] else [])
      -- 4) publish new discovery
      let disc := publish_entity_discovery_one st2 zoneKey
      -- 5) subscribe for switch command if output, and seed state
      if newOut then
        ({ st2 with subs := st2.subs ++ [switch_command_topic zoneKey] },
         dels ++ disc ++ [⟨switch_state_topic zoneKey, .str (get_output_state st2 zoneKey), 1, true⟩])
      else
        let r := publish_contact_state st2 zoneKey
        (r.1, dels ++ disc ++ r.2.1)

-- a pending momentary auto-revert: threading.Thread(target=_auto_off) started
-- at command time; it sleeps OUTPUT_TAP_SEC and then runs auto_off
structure Sched where
  zone : String
  due : Nat
deriving DecidableEq, Repr

-- body of _auto_off after the sleep: unconditionally drives the pin low and
-- publishes OFF on the switch state topic
def auto_off (st : SysState) (zoneKey : String) : SysState × List Pub :=
  (set_output_state st zoneKey false,
   [⟨switch_state_topic zoneKey, .str "OFF", 1, true⟩])

-- the switch-command part of _on_message, after the topic regex resolved the
-- zone key (the regex only matches keys present in SENSORS)
def handleSwitchSet (st : SysState) (zoneKey payload : String) (now : Nat) :
    SysState × List Pub × List Sched :=
  let cls := lookupD st.classes zoneKey ""
  if !is_output_class cls then (st, [], [])
  else
    let cmd := strUpper payload
    if !(cmd == "ON" || cmd == "OFF") then (st, [], [])
    else if cls == "output_toggle" then
      (set_output_state st zoneKey (cmd == "ON"),
       [⟨switch_state_topic zoneKey, .str cmd, 1, true⟩], [])
    else if cmd == "OFF" then
      (set_output_state st zoneKey false,
       [⟨switch_state_topic zoneKey, .str "OFF", 1, true⟩], [])
    else
      (set_output_state st zoneKey true,
       [⟨switch_state_topic zoneKey, .str "ON", 1, true⟩],
       [⟨zoneKey, now + OUTPUT_TAP_MS⟩])

-- the zone-select branch of _on_message
def handleZoneSet (st : SysState) (payload : String) : SysState × List Pub × List Sched :=
  if payload == ZONE_PLACEHOLDER then
    ({ st with selectedZone := ZONE_PLACEHOLDER },
     [⟨TOP_ZONE_STATE, .str ZONE_PLACEHOLDER, 1, true⟩], [])
  else if !(ZONE_KEYS.contains payload) then (st, [], [])
  else
    ({ st with selectedZone := payload },
     [⟨TOP_ZONE_STATE, .str ZONE_PLACEHOLDER, 1, true⟩], [])

-- the class-select branch of _on_message
def handleClassSet (st : SysState) (payload : String) : SysState × List Pub × List Sched :=
  if payload == CLASS_PLACEHOLDER then
    ({ st with selectedClass := CLASS_PLACEHOLDER },
     [⟨TOP_CLASS_STATE, .str CLASS_PLACEHOLDER, 1, true⟩], [])
  else
    let c := strLower payload
    if !(VALID_CLASSES.contains c) then (st, [], [])
    else
      let st1 := { st with selectedClass := c }
      let z := st1.selectedZone
      let r := if ZONE_KEYS.contains z then applyZoneClassChange st1 z c else (st1, [])
      (r.1, r.2 ++ [⟨TOP_CLASS_STATE, .str CLASS_PLACEHOLDER, 1, true⟩], [])

-- _on_message: topic dispatch (the "/switch/set" regex match is modelled by
-- searching SENSORS for the zone whose command topic equals the topic)
def onMessage (st : SysState) (topic0 payload0 : String) (now : Nat) :
    SysState × List Pub × List Sched :=
  let topic := strTrim topic0
  let payload := strTrim payload0
  match ZONE_KEYS.find? (fun z => topic == switch_command_topic z) with
  | some zoneKey => handleSwitchSet st zoneKey payload now
  | none =>
    if topic == TOP_ZONE_SET then handleZoneSet st payload
    else if topic == TOP_CLASS_SET then handleClassSet st payload
    else (st, [], [])

-- deliver a list of (topic, payload) messages, collecting all publishes
def processMsgs (st : SysState) (msgs : List (String × String)) : SysState × List Pub :=
  msgs.foldl (fun acc m =>
    let r := onMessage acc.1 m.1 m.2 0
    (r.1, acc.2 ++ r.2.1)) (st, [])

-- full momentary pulse: deliver ON at time t, then run the scheduled _auto_off;
-- the thread wakes no earlier than the hold duration, `slack` ≥ 0 is the extra
-- scheduling delay; each publish is paired with its emission time
def runTapPulse (st : SysState) (zoneKey : String) (t slack : Nat) :
    SysState × List (Nat × Pub) :=
  let r := onMessage st (switch_command_topic zoneKey) "ON" t
  match r.2.2 with
  | [d] =>
    let r2 := auto_off r.1 d.zone
    (r2.1, r.2.1.map (fun p => (t, p)) ++ r2.2.map (fun p => (d.due + slack, p)))
  | _ => (r.1, r.2.1.map (fun p => (t, p)))

-- ============================================================
-- Polling fallback (main loop body for one poll-fallback zone)
-- ============================================================

structure PollAcc where
  st : SysState
  lastPolled : Option Bool
  pubs : List Pub
  -- number of SENSOR_CHANGE log records (published state changes)
  changes : Nat
deriving Repr, DecidableEq

-- one tick of the main loop for one polled zone; v = GPIO.input(pin) sampled
-- at this tick (the model stores the sampled level before publishing)
def pollTick (zone : String) (acc : PollAcc) (v : Bool) : PollAcc :=
  if is_output_class (lookupD acc.st.classes zone "") then acc
  else if acc.lastPolled == none || acc.lastPolled != some v then
    let stIn := { acc.st with pins := setA acc.st.pins zone v }
    let r := publish_contact_state stIn zone
    { st := r.1, lastPolled := some v, pubs := acc.pubs ++ r.2.1,
      changes := acc.changes + (if r.2.2 then 1 else 0) }
  else acc

def pollRun (zone : String) (acc : PollAcc) (samples : List Bool) : PollAcc :=
  samples.foldl (pollTick zone) acc

-- ============================================================
-- Concrete scenarios used by the theorems
-- ============================================================

-- a zone mid-pulse that was reclassified output_tap -> door before the
-- auto-revert thread woke up: class is the input class "door", pin still HIGH
def c2State : SysState :=
  { initState with classes := setA initState.classes "zone3" "door",
                   pins := setA initState.pins "zone3" true }

def c6Msgs : List (String × String) := [(TOP_ZONE_SET, "zone3"), (TOP_CLASS_SET, "door")]

-- physical contact signal: opens at t = 10 ms, closes again at t = 70 ms —
-- two electrical transitions 60 ms apart, inside the 120 ms debounce window
def c8Signal (t : Nat) : Bool := decide (10 ≤ t) && decide (t < 70)

-- the levels sampled by the 50 ms main-loop ticks at t = 0, 50, 100, 150
def c8Samples : List Bool := (List.range 4).map (fun i => c8Signal (POLL_INTERVAL_MS * i))

-- ============================================================
-- Theorems: ErrorBus
-- ============================================================

theorem leKey_of_ltKey {a b : Int × Nat} (h : ltKey a b = true) : LeKey a b := by
  simp only [ltKey, Bool.or_eq_true, Bool.and_eq_true, decide_eq_true_eq, beq_iff_eq] at h
  rcases h with h | ⟨h1, h2⟩
  · exact Or.inl h
  · exact Or.inr ⟨h1, Nat.le_of_lt h2⟩

theorem leKey_of_not_ltKey {a b : Int × Nat} (h : ltKey a b = false) : LeKey b a := by
  simp only [ltKey, Bool.or_eq_false_iff, Bool.and_eq_false_iff, decide_eq_false_iff_not,
    beq_eq_false_iff_ne, ne_eq] at h
  simp only [LeKey]
  omega

theorem leKey_trans {a b c : Int × Nat} (h1 : LeKey a b) (h2 : LeKey b c) : LeKey a c := by
  rcases h1 with h1 | ⟨h1l, h1r⟩ <;> rcases h2 with h2 | ⟨h2l, h2r⟩
  · exact Or.inl (lt_trans h1 h2)
  · exact Or.inl (h2l ▸ h1)
  · exact Or.inl (h1l ▸ h2)
  · exact Or.inr ⟨h1l.trans h2l, le_trans h1r h2r⟩

theorem leKey_refl (a : Int × Nat) : LeKey a a := Or.inr ⟨rfl, le_refl _⟩

theorem foldl_min_spec (rest : List ErrorItem) (a : ErrorItem) :
    let m := rest.foldl (fun m x => if ltKey (errKey x) (errKey m) then x else m) a
    (m = a ∨ m ∈ rest) ∧ LeKey (errKey m) (errKey a) ∧ ∀ x ∈ rest, LeKey (errKey m) (errKey x) := by
  induction rest generalizing a with
  | nil => exact ⟨Or.inl rfl, leKey_refl _, by intro x hx; cases hx⟩
  | cons y ys ih =>
    intro m
    by_cases hy : ltKey (errKey y) (errKey a) = true
    · have := ih y
      have hm : m = ys.foldl (fun m x => if ltKey (errKey x) (errKey m) then x else m) y := by
        simp only [m, List.foldl_cons, hy, if_true]
      rcases this with ⟨hmem, hle, hall⟩
      rw [hm] at *
      refine ⟨?_, ?_, ?_⟩
      · rcases hmem with h | h
        · exact Or.inr (by rw [h]; exact List.mem_cons_self y ys)
        · exact Or.inr (List.mem_cons_of_mem y h)
      · exact leKey_trans hle (leKey_of_ltKey hy)
      · intro x hx
        rcases List.mem_cons.mp hx with rfl | hx
        · exact hle
        · exact hall x hx
    · have hyf : ltKey (errKey y) (errKey a) = false := by
        cases h : ltKey (errKey y) (errKey a)
        · rfl
        · exact absurd h hy
      have := ih a
      have hm : m = ys.foldl (fun m x => if ltKey (errKey x) (errKey m) then x else m) a := by
        simp only [m, List.foldl_cons, hyf, if_false, Bool.false_eq_true]
      rcases this with ⟨hmem, hle, hall⟩
      rw [hm] at *
      refine ⟨?_, hle, ?_⟩
      · rcases hmem with h | h
        · exact Or.inl h
        · exact Or.inr (List.mem_cons_of_mem y h)
      · intro x hx
        rcases List.mem_cons.mp hx with rfl | hx
        · exact leKey_trans hle (leKey_of_not_ltKey hyf)
        · exact hall x hx

theorem minItem_none_iff (l : List ErrorItem) : minItem l = none ↔ l = [] := by
  cases l <;> simp [minItem]

theorem minItem_spec (l : List ErrorItem) (e : ErrorItem) (h : minItem l = some e) :
    e ∈ l ∧ ∀ f ∈ l, LeKey (errKey e) (errKey f) := by
  cases l with
  | nil => simp [minItem] at h
  | cons a rest =>
    simp only [minItem, Option.some.injEq] at h
    have := foldl_min_spec rest a
    rcases this with ⟨hmem, hle, hall⟩
    rw [h] at hmem hle hall
    refine ⟨?_, ?_⟩
    · rcases hmem with rfl | hm
      · exact List.mem_cons_self _ _
      · exact List.mem_cons_of_mem a hm
    · intro f hf
      rcases List.mem_cons.mp hf with rfl | hf
      · exact hle
      · exact hall f hf

/-- C1: for every sequence of raise/clear operations on the error bus starting
from the empty bus, `snapshot_top` returns a live `ErrorItem` that is minimal in
lexicographic (priority, creation-time) order — numerically lowest priority,
ties broken by earliest creation time — or none when no items are live. -/
theorem snapshot_top_is_lex_min (ops : List BusOp) :
    ((snapshot_top (runOps ops)).1 = none → (runOps ops).errors = []) ∧
    ∀ e, (snapshot_top (runOps ops)).1 = some e →
      e ∈ (runOps ops).errors ∧ ∀ f ∈ (runOps ops).errors, LeKey (errKey e) (errKey f) := by
  constructor
  · intro h
    exact (minItem_none_iff _).mp h
  · intro e he
    exact minItem_spec _ e he

/-- Witness for C1: a concrete raise/clear sequence; the surviving item with the
lowest (priority, creation-time) pair is returned by `snapshot_top`. -/
theorem snapshot_top_is_lex_min_witness :
    (⟨"MQTT_DOWN", "down", 10, 7, 7, 1, none⟩ : ErrorItem) ∈
      (runOps [.raiseOp "CPU_THROTTLE" "hot" 30 none 5,
               .raiseOp "MQTT_DOWN" "down" 10 none 7,
               .clearOp "CPU_THROTTLE",
               .raiseOp "GPIO_OUT" "fail" 10 none 9]).errors ∧
    ∀ f ∈ (runOps [.raiseOp "CPU_THROTTLE" "hot" 30 none 5,
                   .raiseOp "MQTT_DOWN" "down" 10 none 7,
                   .clearOp "CPU_THROTTLE",
                   .raiseOp "GPIO_OUT" "fail" 10 none 9]).errors,
      LeKey (errKey ⟨"MQTT_DOWN", "down", 10, 7, 7, 1, none⟩) (errKey f) :=
  (snapshot_top_is_lex_min [.raiseOp "CPU_THROTTLE" "hot" 30 none 5,
      .raiseOp "MQTT_DOWN" "down" 10 none 7,
      .clearOp "CPU_THROTTLE",
      .raiseOp "GPIO_OUT" "fail" 10 none 9]).2 _ (by decide)

-- ============================================================
-- Theorems: raise_error deduplication (C4)
-- ============================================================

theorem lookupA_setA_self {α : Type} (m : List (String × α)) (k : String) (v : α) :
    lookupA (setA m k v) k = some v := by
  induction m with
  | nil => simp [setA, lookupA]
  | cons p rest ih =>
    by_cases h : (p.1 == k) = true
    · simp [setA, lookupA, h]
    · have h' : (p.1 == k) = false := by
        cases hc : (p.1 == k)
        · rfl
        · exact absurd hc h
      simp [setA, lookupA, h', ih]

theorem lookupA_setA_ne {α : Type} (m : List (String × α)) (k k' : String) (v : α)
    (h : (k == k') = false) : lookupA (setA m k v) k' = lookupA m k' := by
  induction m with
  | nil => simp [setA, lookupA, h]
  | cons p rest ih =>
    by_cases hp : (p.1 == k) = true
    · have hpk : p.1 = k := by simpa [beq_iff_eq] using hp
      simp [setA, lookupA, hp, hpk, h]
    · have hp' : (p.1 == k) = false := by
        cases hc : (p.1 == k)
        · rfl
        · exact absurd hc hp
      simp only [setA, hp', if_false, Bool.false_eq_true, lookupA]
      by_cases hq : (p.1 == k') = true
      · simp [lookupA, hq]
      · have hq' : (p.1 == k') = false := by
          cases hc : (p.1 == k')
          · rfl
          · exact absurd hc hq
        simp [lookupA, hq', ih]

theorem map_upd_of_no_key (l : List ErrorItem) (key : String) (f : ErrorItem → ErrorItem)
    (h : containsKey l key = false) :
    l.map (fun e => if e.key == key then f e else e) = l := by
  induction l with
  | nil => rfl
  | cons e rest ih =>
    simp only [containsKey, List.any_cons, Bool.or_eq_false_iff] at h
    have hrest := ih (by simpa [containsKey] using h.2)
    simp only [List.map_cons, h.1, Bool.false_eq_true, if_false, hrest]

theorem findItem_append_last (l : List ErrorItem) (key : String) (x : ErrorItem)
    (h : containsKey l key = false) :
    findItem (l ++ [x]) key = if x.key == key then some x else none := by
  induction l with
  | nil => cases hx : (x.key == key) <;> simp [findItem, List.find?, hx]
  | cons e rest ih =>
    simp only [containsKey, List.any_cons, Bool.or_eq_false_iff] at h
    simp only [findItem, List.cons_append, List.find?, h.1]
    exact ih (by simpa [containsKey] using h.2)

/-- C4: raising the same key twice with an identical (priority, message,
metadata) fingerprint emits exactly one log record (the first call), and the
second raise updates the stored item in place, leaving its occurrence count at
2 without re-logging. -/
theorem raise_error_same_fp_logs_once (s : BusState) (key msg : String) (prio : Int)
    (meta : Option String) (t1 t2 : Nat) (h : containsKey s.errors key = false) :
    (raise_error s key msg prio meta t1).2 = true ∧
    (raise_error (raise_error s key msg prio meta t1).1 key msg prio meta t2).2 = false ∧
    (findItem (raise_error (raise_error s key msg prio meta t1).1 key msg prio meta t2).1.errors
        key).map ErrorItem.count = some 2 := by
  have hitem : ((⟨key, msg, prio, t1, t1, 1, meta⟩ : ErrorItem).key == key) = true := by
    simp
  have hexists2 :
      containsKey (s.errors ++ [⟨key, msg, prio, t1, t1, 1, meta⟩]) key = true := by
    simp [containsKey, List.any_append]
  constructor
  · simp [raise_error, h]
  constructor
  · simp only [raise_error, h, Bool.not_false, Bool.true_or, if_true, if_false,
      Bool.false_eq_true, hexists2]
    simp [lookupA_setA_self, fingerprint]
  · simp only [raise_error, h, Bool.not_false, Bool.true_or, if_true, if_false,
      Bool.false_eq_true, hexists2]
    rw [List.map_append, map_upd_of_no_key s.errors key _ h]
    simp only [List.map_cons, List.map_nil, hitem, if_true]
    rw [findItem_append_last s.errors key _ h]
    simp

/-- Witness for C4: a fresh key raised twice with the same fingerprint. -/
theorem raise_error_same_fp_logs_once_witness :
    (raise_error emptyBus "MQTT_PUB_FAIL" "publish failed" 10 none 3).2 = true ∧
    (raise_error (raise_error emptyBus "MQTT_PUB_FAIL" "publish failed" 10 none 3).1
        "MQTT_PUB_FAIL" "publish failed" 10 none 8).2 = false ∧
    (findItem (raise_error (raise_error emptyBus "MQTT_PUB_FAIL" "publish failed" 10 none 3).1
        "MQTT_PUB_FAIL" "publish failed" 10 none 8).1.errors
        "MQTT_PUB_FAIL").map ErrorItem.count = some 2 :=
  raise_error_same_fp_logs_once emptyBus "MQTT_PUB_FAIL" "publish failed" 10 none 3 8
    (by decide)

-- ============================================================
-- Theorems: the momentary auto-revert has no role check (C2)
-- ============================================================

/-- C2 (code bug): `_auto_off` performs no role check. Even though zone3's
current class is the input class "door", the scheduled auto-revert still drives
the pin LOW and publishes a retained OFF on the switch state topic, instead of
acting as a no-op as the spec requires. -/
theorem auto_off_ignores_current_role :
    is_output_class (lookupD c2State.classes "zone3" "opening") = false ∧
    pinLevel c2State "zone3" = true ∧
    pinLevel (auto_off c2State "zone3").1 "zone3" = false ∧
    (auto_off c2State "zone3").2 =
      [⟨switch_state_topic "zone3", .str "OFF", 1, true⟩] := by decide

-- ============================================================
-- Theorems: selection cursor (C5) and zone/class selection (C6)
-- ============================================================

/-- Counterexample to C5: after the class selection "door" completes the
reclassification of the pending zone "zone3", the internal two-slot cursor is
NOT reset — the pending zone slot still reads "zone3" and the pending class
slot still reads "door", not the unselected placeholders. -/
theorem selection_cursor_not_reset_after_apply :
    lookupD (processMsgs initState c6Msgs).1.classes "zone3" "opening" = "door" ∧
    (processMsgs initState c6Msgs).1.selectedZone = "zone3" ∧
    (processMsgs initState c6Msgs).1.selectedClass = "door" ∧
    ¬((processMsgs initState c6Msgs).1.selectedZone = ZONE_PLACEHOLDER) ∧
    ¬((processMsgs initState c6Msgs).1.selectedClass = CLASS_PLACEHOLDER) := by decide

/-- C5 as amended: the selection cursor is reset to the placeholders by every
discovery (re)publish of the selector entities (and a slot resets when its set
topic receives the placeholder payload); after an applied or aborted class
selection only the dropdown STATE TOPICS are re-published to the placeholder,
while the internal slots retain their last values. -/
theorem select_discovery_resets_cursor (st : SysState) :
    (publish_zone_class_select_discovery st).1.selectedZone = ZONE_PLACEHOLDER ∧
    (publish_zone_class_select_discovery st).1.selectedClass = CLASS_PLACEHOLDER ∧
    (publish_zone_class_select_discovery st).2 =
      [⟨zone_select_discovery_topic, .discZoneSelect, 1, true⟩,
       ⟨class_select_discovery_topic, .discClassSelect, 1, true⟩,
       ⟨TOP_ZONE_STATE, .str ZONE_PLACEHOLDER, 1, true⟩,
       ⟨TOP_CLASS_STATE, .str CLASS_PLACEHOLDER, 1, true⟩] ∧
    (handleZoneSet st ZONE_PLACEHOLDER).1.selectedZone = ZONE_PLACEHOLDER ∧
    (handleClassSet st CLASS_PLACEHOLDER).1.selectedClass = CLASS_PLACEHOLDER := by
  refine ⟨rfl, rfl, rfl, ?_, ?_⟩
  · simp [handleZoneSet]
  · simp [handleClassSet]

/-- C6: selecting zone "zone3" then class "door" applies classification "door"
to zone3 and, across the two messages, republishes both dropdown state topics
to their placeholder values; a class selection "door" with no prior zone
selection applies no classification change and never touches the zone dropdown
state topic. -/
theorem zone_then_class_select_behavior :
    lookupD (processMsgs initState c6Msgs).1.classes "zone3" "opening" = "door" ∧
    (⟨TOP_ZONE_STATE, .str ZONE_PLACEHOLDER, 1, true⟩ : Pub) ∈ (processMsgs initState c6Msgs).2 ∧
    (⟨TOP_CLASS_STATE, .str CLASS_PLACEHOLDER, 1, true⟩ : Pub) ∈ (processMsgs initState c6Msgs).2 ∧
    (onMessage initState TOP_CLASS_SET "door" 0).1.classes = initState.classes ∧
    ((onMessage initState TOP_CLASS_SET "door" 0).2.1.all
      (fun p => p.topic != TOP_ZONE_STATE)) = true := by decide

-- ============================================================
-- Theorems: polling fallback is not debounced (C8)
-- ============================================================

/-- Counterexample to C8: in the polling fallback, two electrical transitions
of the same pin 60 ms apart (inside the 120 ms debounce window) produce TWO
published state changes, because a poll tick lands between them and the poll
path publishes on every observed level change with no debounce. -/
theorem poll_two_transitions_in_window_two_changes :
    c8Signal 9 = false ∧ c8Signal 10 = true ∧
    c8Signal 69 = true ∧ c8Signal 70 = false ∧
    70 - 10 < BOUNCE_MS ∧
    (pollRun "zone1" ⟨initState, none, [], 0⟩ c8Samples).changes = 2 := by decide

theorem pollTick_same_level (zone : String) (acc : PollAcc) (v : Bool)
    (h : acc.lastPolled = some v) : pollTick zone acc v = acc := by
  simp [pollTick, h]

/-- C8 as amended: the 120 ms debounce applies only to the edge-detect path
(the library callback's bouncetime); the polling fallback is debounced only by
its 50 ms sampling interval — two transitions with no poll tick between them
(every sample still reads the previous level) produce no publish and no
published state change at all, while transitions separated by a poll tick each
produce a published state change even within 120 ms. -/
theorem poll_no_tick_between_no_publish (zone : String) (st : SysState) (b : Bool)
    (pubs0 : List Pub) (c0 n : Nat) :
    pollRun zone ⟨st, some b, pubs0, c0⟩ (List.replicate n b) = ⟨st, some b, pubs0, c0⟩ := by
  induction n with
  | zero => rfl
  | succ n ih =>
    simp only [pollRun, List.replicate_succ, List.foldl_cons]
    rw [pollTick_same_level zone _ b rfl]
    exact ih

-- ============================================================
-- Theorems: persisted classification load (C9)
-- ============================================================

theorem mem_setA {α : Type} (m : List (String × α)) (k : String) (v : α)
    (kv : String × α) (h : kv ∈ setA m k v) : kv = (k, v) ∨ kv ∈ m := by
  induction m with
  | nil => simpa [setA] using h
  | cons p rest ih =>
    by_cases hp : (p.1 == k) = true
    · simp only [setA, hp, if_true] at h
      rcases List.mem_cons.mp h with h | h
      · exact Or.inl h
      · exact Or.inr (List.mem_cons_of_mem p h)
    · have hp' : (p.1 == k) = false := by
        cases hc : (p.1 == k)
        · rfl
        · exact absurd hc hp
      simp only [setA, hp', if_false, Bool.false_eq_true] at h
      rcases List.mem_cons.mp h with h | h
      · exact Or.inr (by rw [h]; exact List.mem_cons_self p rest)
      · rcases ih h with h | h
        · exact Or.inl h
        · exact Or.inr (List.mem_cons_of_mem p h)

theorem load_zone_classes_sound (data : List (String × String)) :
    ∀ kv ∈ load_zone_classes data, kv.1 ∈ ZONE_KEYS ∧ kv.2 ∈ VALID_CLASSES := by
  have key : ∀ (l : List (String × String)) (acc : List (String × String)),
      (∀ kv ∈ acc, kv.1 ∈ ZONE_KEYS ∧ kv.2 ∈ VALID_CLASSES) →
      ∀ kv ∈ l.foldl
        (fun out kv =>
          let kk := strTrim kv.1
          let vv := strLower (strTrim kv.2)
          if ZONE_KEYS.contains kk && VALID_CLASSES.contains vv then setA out kk vv else out)
        acc, kv.1 ∈ ZONE_KEYS ∧ kv.2 ∈ VALID_CLASSES := by
    intro l
    induction l with
    | nil => intro acc hacc kv hkv; exact hacc kv hkv
    | cons p rest ih =>
      intro acc hacc kv hkv
      simp only [List.foldl_cons] at hkv
      by_cases hg : (ZONE_KEYS.contains (strTrim p.1) &&
          VALID_CLASSES.contains (strLower (strTrim p.2))) = true
      · refine ih _ ?_ kv (by simpa only [hg, if_true] using hkv)
        intro kv' hkv'
        rcases mem_setA _ _ _ kv' hkv' with h | h
        · rcases Bool.and_eq_true_iff.mp hg with ⟨h1, h2⟩
          rw [h]
          exact ⟨by simpa using h1, by simpa using h2⟩
        · exact hacc kv' h
      · have hg' : (ZONE_KEYS.contains (strTrim p.1) &&
            VALID_CLASSES.contains (strLower (strTrim p.2))) = false := by
          cases hc : (ZONE_KEYS.contains (strTrim p.1) &&
              VALID_CLASSES.contains (strLower (strTrim p.2)))
          · rfl
          · exact absurd hc hg
        exact ih _ hacc kv (by simpa only [hg', Bool.false_eq_true, if_false] using hkv)
  exact key data [] (by intro kv h; cases h)

theorem lookupA_foldl_setA_of_absent {α : Type} (updates : List (String × α))
    (m0 : List (String × α)) (z : String) (h : lookupA updates z = none) :
    lookupA (updates.foldl (fun m kv => setA m kv.1 kv.2) m0) z = lookupA m0 z := by
  induction updates generalizing m0 with
  | nil => rfl
  | cons p rest ih =>
    simp only [lookupA] at h
    by_cases hp : (p.1 == z) = true
    · simp [hp] at h
    · have hp' : (p.1 == z) = false := by
        cases hc : (p.1 == z)
        · rfl
        · exact absurd hc hp
      simp only [hp', if_false, Bool.false_eq_true] at h
      simp only [List.foldl_cons]
      rw [ih _ h, lookupA_setA_ne _ _ _ _ hp']

/-- C9: loading the persisted classification map keeps only entries whose
(stripped) zone key is a known zone and whose (normalized) class value is a
recognized class — every other entry is ignored without error (the loader is a
total function) — and any zone with no surviving entry keeps the default
generic input class "opening" after the boot-time application of the map. -/
theorem load_zone_classes_ignores_invalid (data : List (String × String)) :
    (∀ kv ∈ load_zone_classes data, kv.1 ∈ ZONE_KEYS ∧ kv.2 ∈ VALID_CLASSES) ∧
    (∀ z ∈ ZONE_KEYS, lookupA (load_zone_classes data) z = none →
      lookupD (bootClasses data) z "opening" = "opening") := by
  refine ⟨load_zone_classes_sound data, ?_⟩
  intro z hz habs
  unfold bootClasses lookupD
  rw [lookupA_foldl_setA_of_absent _ _ _ habs]
  fin_cases hz <;> rfl

/-- Witness for C9: a map with an unknown zone key, an invalid class value and
one good entry; the junk is dropped and an absent zone stays "opening". -/
theorem load_zone_classes_ignores_invalid_witness :
    (∀ kv ∈ load_zone_classes [("bogus", "door"), ("zone1", "sensor"), ("zone3", " Door ")],
      kv.1 ∈ ZONE_KEYS ∧ kv.2 ∈ VALID_CLASSES) ∧
    lookupD (bootClasses [("bogus", "door"), ("zone1", "sensor"), ("zone3", " Door ")])
      "zone2" "opening" = "opening" :=
  ⟨(load_zone_classes_ignores_invalid
      [("bogus", "door"), ("zone1", "sensor"), ("zone3", " Door ")]).1,
   (load_zone_classes_ignores_invalid
      [("bogus", "door"), ("zone1", "sensor"), ("zone3", " Door ")]).2
      "zone2" (by decide) (by decide)⟩

-- ============================================================
-- Theorems: input-state publish suppressed for output zones (C10)
-- ============================================================

/-- C10: for a zone whose current device class is an output class,
`publish_contact_state` returns immediately: no message is published, the
contact-state map is untouched, and the last-contact-change tracking variables
are untouched (the returned state is exactly the input state). -/
theorem publish_contact_state_output_noop (st : SysState) (k : String)
    (h : is_output_class (lookupD st.classes k "") = true) :
    publish_contact_state st k = (st, [], false) := by
  simp [publish_contact_state, h]

/-- Witness for C10: zone1 classified output_toggle. -/
theorem publish_contact_state_output_noop_witness :
    publish_contact_state
      { initState with classes := setA initState.classes "zone1" "output_toggle" } "zone1" =
    ({ initState with classes := setA initState.classes "zone1" "output_toggle" }, [], false) :=
  publish_contact_state_output_noop
    { initState with classes := setA initState.classes "zone1" "output_toggle" } "zone1"
    (by decide)

-- ============================================================
-- Theorems: momentary-output pulse (C7)
-- ============================================================

theorem strTrim_ON : strTrim "ON" = "ON" := by decide

theorem strUpper_ON : strUpper "ON" = "ON" := by decide

theorem find_switch_topic (zone : String) (hz : zone ∈ ZONE_KEYS) :
    ZONE_KEYS.find? (fun z => strTrim (switch_command_topic zone) == switch_command_topic z) =
      some zone := by
  fin_cases hz <;> decide

theorem onMessage_tap_on (st : SysState) (zone : String) (t : Nat)
    (hz : zone ∈ ZONE_KEYS) (hc : lookupD st.classes zone "" = "output_tap") :
    onMessage st (switch_command_topic zone) "ON" t =
      (set_output_state st zone true,
       [⟨switch_state_topic zone, .str "ON", 1, true⟩],
       [⟨zone, t + OUTPUT_TAP_MS⟩]) := by
  have hfind := find_switch_topic zone hz
  have hioc : is_output_class "output_tap" = true := by decide
  have e1 : (("ON" : String) == "ON") = true := by decide
  have e2 : (("ON" : String) == "OFF") = false := by decide
  have e3 : (("output_tap" : String) == "output_toggle") = false := by decide
  simp only [onMessage, strTrim_ON, hfind, handleSwitchSet, hc, hioc, strUpper_ON,
    e1, e2, e3, Bool.not_true, Bool.true_or, Bool.false_eq_true, if_false, if_true,
    Bool.not_false]

/-- C7: for a zone classified output_tap, an ON command at time t drives the
pin active and publishes retained ON; with no further command, the scheduled
auto-revert fires at t + hold + slack (hold = 500 ms, slack ≥ 0 the
thread-scheduling delay, so the OFF lies within [t + hold, t + hold + slack]),
returning the output to OFF; exactly two retained state publishes occur for
the zone: ON at t, then OFF. -/
theorem output_tap_pulse (st : SysState) (zone : String) (t slack : Nat)
    (hz : zone ∈ ZONE_KEYS) (hc : lookupD st.classes zone "" = "output_tap") :
    pinLevel (onMessage st (switch_command_topic zone) "ON" t).1 zone = true ∧
    (runTapPulse st zone t slack).2 =
      [(t, ⟨switch_state_topic zone, .str "ON", 1, true⟩),
       (t + OUTPUT_TAP_MS + slack, ⟨switch_state_topic zone, .str "OFF", 1, true⟩)] ∧
    pinLevel (runTapPulse st zone t slack).1 zone = false ∧
    t + OUTPUT_TAP_MS ≤ t + OUTPUT_TAP_MS + slack := by
  have hmsg := onMessage_tap_on st zone t hz hc
  refine ⟨?_, ?_, ?_, Nat.le_add_right _ _⟩
  · rw [hmsg]
    simp [pinLevel, set_output_state, lookupD, lookupA_setA_self]
  · rw [runTapPulse, hmsg]
    simp [auto_off]
  · rw [runTapPulse, hmsg]
    simp [auto_off, set_output_state, pinLevel, lookupD, lookupA_setA_self]

/-- Witness for C7: zone2 classified output_tap, command at t = 0, 25 ms of
scheduling slack. -/
theorem output_tap_pulse_witness :
    pinLevel (onMessage { initState with classes := setA initState.classes "zone2" "output_tap" }
      (switch_command_topic "zone2") "ON" 0).1 "zone2" = true ∧
    (runTapPulse { initState with classes := setA initState.classes "zone2" "output_tap" }
        "zone2" 0 25).2 =
      [(0, ⟨switch_state_topic "zone2", .str "ON", 1, true⟩),
       (0 + OUTPUT_TAP_MS + 25, ⟨switch_state_topic "zone2", .str "OFF", 1, true⟩)] ∧
    pinLevel (runTapPulse { initState with classes := setA initState.classes "zone2" "output_tap" }
      "zone2" 0 25).1 "zone2" = false ∧
    0 + OUTPUT_TAP_MS ≤ 0 + OUTPUT_TAP_MS + 25 :=
  output_tap_pulse { initState with classes := setA initState.classes "zone2" "output_tap" }
    "zone2" 0 25 (by decide) (by decide)

-- ============================================================
-- Theorems: role change keeps exactly one discovery descriptor (C3)
-- ============================================================

theorem lookupA_removeA_self {α : Type} (m : List (String × α)) (k : String) :
    lookupA (removeA m k) k = none := by
  induction m with
  | nil => rfl
  | cons p rest ih =>
    by_cases h : (p.1 == k) = true
    · have hb : (p.1 != k) = false := by simp [bne, h]
      simpa [removeA, List.filter, hb] using ih
    · have h' : (p.1 == k) = false := by
        cases hc : (p.1 == k)
        · rfl
        · exact absurd hc h
      have hb : (p.1 != k) = true := by simp [bne, h']
      simpa [removeA, List.filter, hb, lookupA, h'] using ih

theorem beq_str_false_symm {a b : String} (h : (a == b) = false) : (b == a) = false := by
  apply beq_eq_false_iff_ne.mpr
  exact fun hh => (beq_eq_false_iff_ne.mp h) hh.symm

-- topic distinctness for the same zone key, via total lengths
theorem switch_state_ne_switch_disc (z : String) :
    (switch_state_topic z == switch_discovery_topic z) = false := by
  apply beq_eq_false_iff_ne.mpr
  intro h
  have hlen := congrArg String.length h
  have e1 : ("monitor" : String).length = 7 := by decide
  have e2 : ("_" : String).length = 1 := by decide
  have e3 : ("/switch/state" : String).length = 13 := by decide
  have e4 : ("homeassistant" : String).length = 13 := by decide
  have e5 : ("/switch/" : String).length = 8 := by decide
  have e6 : ("/" : String).length = 1 := by decide
  have e7 : ("/config" : String).length = 7 := by decide
  simp only [switch_state_topic, switch_discovery_topic, HOST, HA_DISCOVERY_PREFIX,
    String.length_append, e1, e2, e3, e4, e5, e6, e7] at hlen
  omega

theorem switch_state_ne_contact_disc (z : String) :
    (switch_state_topic z == contact_discovery_topic z) = false := by
  apply beq_eq_false_iff_ne.mpr
  intro h
  have hlen := congrArg String.length h
  have e1 : ("monitor" : String).length = 7 := by decide
  have e2 : ("_" : String).length = 1 := by decide
  have e3 : ("/switch/state" : String).length = 13 := by decide
  have e4 : ("homeassistant" : String).length = 13 := by decide
  have e5 : ("/binary_sensor/" : String).length = 15 := by decide
  have e6 : ("/" : String).length = 1 := by decide
  have e7 : ("/config" : String).length = 7 := by decide
  simp only [switch_state_topic, contact_discovery_topic, HOST, HA_DISCOVERY_PREFIX,
    String.length_append, e1, e2, e3, e4, e5, e6, e7] at hlen
  omega

theorem contact_state_ne_switch_disc (z : String) :
    (contact_state_topic z == switch_discovery_topic z) = false := by
  apply beq_eq_false_iff_ne.mpr
  intro h
  have hlen := congrArg String.length h
  have e1 : ("monitor" : String).length = 7 := by decide
  have e2 : ("_" : String).length = 1 := by decide
  have e3 : ("/state" : String).length = 6 := by decide
  have e4 : ("homeassistant" : String).length = 13 := by decide
  have e5 : ("/switch/" : String).length = 8 := by decide
  have e6 : ("/" : String).length = 1 := by decide
  have e7 : ("/config" : String).length = 7 := by decide
  simp only [contact_state_topic, switch_discovery_topic, HOST, HA_DISCOVERY_PREFIX,
    String.length_append, e1, e2, e3, e4, e5, e6, e7] at hlen
  omega

theorem contact_state_ne_contact_disc (z : String) :
    (contact_state_topic z == contact_discovery_topic z) = false := by
  apply beq_eq_false_iff_ne.mpr
  intro h
  have hlen := congrArg String.length h
  have e1 : ("monitor" : String).length = 7 := by decide
  have e2 : ("_" : String).length = 1 := by decide
  have e3 : ("/state" : String).length = 6 := by decide
  have e4 : ("homeassistant" : String).length = 13 := by decide
  have e5 : ("/binary_sensor/" : String).length = 15 := by decide
  have e6 : ("/" : String).length = 1 := by decide
  have e7 : ("/config" : String).length = 7 := by decide
  simp only [contact_state_topic, contact_discovery_topic, HOST, HA_DISCOVERY_PREFIX,
    String.length_append, e1, e2, e3, e4, e5, e6, e7] at hlen
  omega

theorem switch_disc_ne_contact_disc (z : String) :
    (switch_discovery_topic z == contact_discovery_topic z) = false := by
  apply beq_eq_false_iff_ne.mpr
  intro h
  have hlen := congrArg String.length h
  have e1 : ("homeassistant" : String).length = 13 := by decide
  have e2 : ("/switch/" : String).length = 8 := by decide
  have e3 : ("/binary_sensor/" : String).length = 15 := by decide
  have e4 : ("monitor" : String).length = 7 := by decide
  have e5 : ("/" : String).length = 1 := by decide
  have e6 : ("/config" : String).length = 7 := by decide
  simp only [switch_discovery_topic, contact_discovery_topic, HOST, HA_DISCOVERY_PREFIX,
    String.length_append, e1, e2, e3, e4, e5, e6] at hlen
  omega

theorem strTrim_zone_of_mem (z : String) (hz : z ∈ ZONE_KEYS) : strTrim z = z := by
  fin_cases hz <;> decide

theorem norm_class_of_mem (c : String) (hc : c ∈ VALID_CLASSES) :
    strLower (strTrim c) = c := by
  fin_cases hc <;> decide

theorem isDelete_onoff (b : Bool) :
    isDeletePayload (.str (if b then "ON" else "OFF")) = false := by
  cases b <;> decide

theorem isDelete_get_output_state (st : SysState) (z : String) :
    isDeletePayload (.str (get_output_state st z)) = false := by
  unfold get_output_state
  cases pinLevel st z <;> simp [isDeletePayload]

theorem isDelete_onoff_raw (b : Bool) :
    isDeletePayload (.str (if b = true then "ON" else "OFF")) = false := by
  cases b <;> decide

theorem isDelete_discBinary (z c : String) :
    isDeletePayload (Payload.discBinary z c) = false := rfl

theorem isDelete_discSwitch (z c : String) :
    isDeletePayload (Payload.discSwitch z c) = false := rfl

theorem isDelete_empty : isDeletePayload (Payload.str "") = true := by decide

set_option maxHeartbeats 1600000 in
/-- C3: a completed role-change transition leaves exactly one of the zone's
two discovery descriptors retained on the broker: the descriptor of the new
category is retained-published and the other is retained-deleted (deleted by
this transition's empty retained publish when the category changed, and kept
absent otherwise — the precondition says the descriptor opposite to the
current class was not retained, which is exactly what this theorem
re-establishes for the new class). -/
theorem role_change_discovery_exclusive (st : SysState)
    (retained : List (String × Payload)) (zone cls : String)
    (hz : zone ∈ ZONE_KEYS) (hc : cls ∈ VALID_CLASSES)
    (hne : lookupD st.classes zone "opening" ≠ cls)
    (hpre : lookupA retained
      (if is_output_class (lookupD st.classes zone "opening")
       then contact_discovery_topic zone else switch_discovery_topic zone) = none) :
    (is_output_class cls = true →
      lookupA (applyPubs retained (applyZoneClassChange st zone cls).2)
          (switch_discovery_topic zone) = some (.discSwitch zone cls) ∧
      lookupA (applyPubs retained (applyZoneClassChange st zone cls).2)
          (contact_discovery_topic zone) = none) ∧
    (is_output_class cls = false →
      lookupA (applyPubs retained (applyZoneClassChange st zone cls).2)
          (contact_discovery_topic zone) = some (.discBinary zone cls) ∧
      lookupA (applyPubs retained (applyZoneClassChange st zone cls).2)
          (switch_discovery_topic zone) = none) := by
  have htz := strTrim_zone_of_mem zone hz
  have hcn := norm_class_of_mem cls hc
  have hzc : ZONE_KEYS.contains zone = true := by simpa using hz
  have hcc : VALID_CLASSES.contains cls = true := by simpa using hc
  have hbe : (lookupD st.classes zone "opening" == cls) = false := beq_eq_false_iff_ne.mpr hne
  have hclsSet : lookupD (setA st.classes zone cls) zone "opening" = cls := by
    simp [lookupD, lookupA_setA_self]
  have hclsSet2 : lookupD (setA st.classes zone cls) zone "" = cls := by
    simp [lookupD, lookupA_setA_self]
  cases hOld : is_output_class (lookupD st.classes zone "opening") <;>
    cases hNew : is_output_class cls
  · -- input -> input
    rw [hOld] at hpre
    simp only [Bool.false_eq_true, if_false] at hpre
    refine ⟨?_, fun _ => ?_⟩
    · intro hcontra
      exact absurd hcontra Bool.false_ne_true
    simp only [applyZoneClassChange, htz, hcn, hzc, hcc, hbe, Bool.not_true, Bool.not_false,
      Bool.false_eq_true, Bool.true_eq_false, if_false, if_true, gpio_setup_for_zone,
      publish_entity_discovery_one, publish_contact_state, set_output_state,
      hclsSet, hclsSet2, hOld, hNew, Bool.false_and, Bool.and_false, Bool.and_self,
      List.nil_append, List.cons_append, applyPubs, List.foldl_cons, List.foldl_nil,
      applyPub, isDelete_onoff_raw, isDelete_discBinary, isDelete_discSwitch, isDelete_empty]
    constructor
    · rw [lookupA_setA_ne _ _ _ _ (contact_state_ne_contact_disc zone), lookupA_setA_self]
    · rw [lookupA_setA_ne _ _ _ _ (contact_state_ne_switch_disc zone),
        lookupA_setA_ne _ _ _ _ (beq_str_false_symm (switch_disc_ne_contact_disc zone)),
        hpre]
  · -- input -> output
    rw [hOld] at hpre
    simp only [Bool.false_eq_true, if_false] at hpre
    refine ⟨fun _ => ?_, ?_⟩
    case refine_2 =>
      intro hcontra
      exact Bool.noConfusion hcontra
    simp only [applyZoneClassChange, htz, hcn, hzc, hcc, hbe, Bool.not_true, Bool.not_false,
      Bool.false_eq_true, Bool.true_eq_false, if_false, if_true, gpio_setup_for_zone,
      publish_entity_discovery_one, set_output_state,
      hclsSet, hclsSet2, hOld, hNew, Bool.false_and, Bool.and_false, Bool.and_self,
      Bool.true_and, Bool.and_true,
      List.nil_append, List.cons_append, applyPubs, List.foldl_cons, List.foldl_nil,
      applyPub, isDelete_get_output_state, isDelete_discBinary, isDelete_discSwitch,
      isDelete_empty]
    constructor
    · rw [lookupA_setA_ne _ _ _ _ (switch_state_ne_switch_disc zone), lookupA_setA_self]
    · rw [lookupA_setA_ne _ _ _ _ (switch_state_ne_contact_disc zone),
        lookupA_setA_ne _ _ _ _ (switch_disc_ne_contact_disc zone),
        lookupA_removeA_self]
  · -- output -> input
    rw [hOld] at hpre
    simp only [if_true] at hpre
    refine ⟨?_, fun _ => ?_⟩
    · intro hcontra
      exact absurd hcontra Bool.false_ne_true
    simp only [applyZoneClassChange, htz, hcn, hzc, hcc, hbe, Bool.not_true, Bool.not_false,
      Bool.false_eq_true, Bool.true_eq_false, if_false, if_true, gpio_setup_for_zone,
      publish_entity_discovery_one, publish_contact_state, set_output_state,
      hclsSet, hclsSet2, hOld, hNew, Bool.false_and, Bool.and_false, Bool.and_self,
      Bool.true_and, Bool.and_true,
      List.nil_append, List.cons_append, applyPubs, List.foldl_cons, List.foldl_nil,
      applyPub, isDelete_onoff_raw, isDelete_discBinary, isDelete_discSwitch, isDelete_empty]
    constructor
    · rw [lookupA_setA_ne _ _ _ _ (contact_state_ne_contact_disc zone), lookupA_setA_self]
    · rw [lookupA_setA_ne _ _ _ _ (contact_state_ne_switch_disc zone),
        lookupA_setA_ne _ _ _ _ (beq_str_false_symm (switch_disc_ne_contact_disc zone)),
        lookupA_removeA_self]
  · -- output -> output
    rw [hOld] at hpre
    simp only [if_true] at hpre
    refine ⟨fun _ => ?_, ?_⟩
    case refine_2 =>
      intro hcontra
      exact Bool.noConfusion hcontra
    simp only [applyZoneClassChange, htz, hcn, hzc, hcc, hbe, Bool.not_true, Bool.not_false,
      Bool.false_eq_true, Bool.true_eq_false, if_false, if_true, gpio_setup_for_zone,
      publish_entity_discovery_one, set_output_state,
      hclsSet, hclsSet2, hOld, hNew, Bool.false_and, Bool.and_false, Bool.and_self,
      Bool.true_and, Bool.and_true,
      List.nil_append, List.cons_append, applyPubs, List.foldl_cons, List.foldl_nil,
      applyPub, isDelete_get_output_state, isDelete_discBinary, isDelete_discSwitch,
      isDelete_empty]
    constructor
    · rw [lookupA_setA_ne _ _ _ _ (switch_state_ne_switch_disc zone), lookupA_setA_self]
    · rw [lookupA_setA_ne _ _ _ _ (switch_state_ne_contact_disc zone),
        lookupA_setA_ne _ _ _ _ (switch_disc_ne_contact_disc zone),
        hpre]

/-- Witness for C3: zone3, "opening" -> "output_toggle" against an empty
retained store. -/
theorem role_change_discovery_exclusive_witness :
    lookupA (applyPubs [] (applyZoneClassChange initState "zone3" "output_toggle").2)
        (switch_discovery_topic "zone3") = some (.discSwitch "zone3" "output_toggle") ∧
    lookupA (applyPubs [] (applyZoneClassChange initState "zone3" "output_toggle").2)
        (contact_discovery_topic "zone3") = none :=
  (role_change_discovery_exclusive initState [] "zone3" "output_toggle" (by decide) (by decide)
    (by decide) (by decide)).1 (by decide)
